import Mathlib

/-!
Shallow embedding of the RevenueCat webhook handler
(`supabase/functions/revenuecat-webhook/index.ts`).

The handler authenticates an inbound POST, parses a subscription lifecycle
event, dispatches on the event type to one of four permission-store handlers
(activation, cancellation, expiration, billing issue), optionally fires a
fire-and-forget insights side-effect call, and returns a JSON response.

Modelling choices:
- The `user_permissions` table is a list of records keyed by
  (profile_id, permission_id); `upsert` overwrites the record for the key.
- JSON metadata objects are association lists with lookup (`Meta.get`)
  semantics; the JS object spread `\x7b...existing, k: v\x7d` becomes `Meta.set`.
- `new Date().toISOString()` is an opaque timestamp string passed in as `now`;
  `expiration_at_ms` stays in milliseconds (`Option Int`), since
  `Date.toISOString` is injective on it and no claim depends on formatting.
- Environment variables (`Deno.env.get`) are `Option String` parameters.
- The outbound insights call is an oracle parameter `InsightsOutcome`; the
  function `triggerPremiumInsightsGeneration` swallows every failure, as in
  the source, returning only whether insights generation succeeded.
- Store reads/writes are recorded in a trace (`List StoreOp`) so that
  "no record read or mutated" claims are statable.
-/

namespace RCWebhook

/-- A JSON metadata value: the handler writes strings and one boolean flag. -/
inductive MVal where
  | str (s : String)
  | bool (b : Bool)
deriving DecidableEq, Repr

/-- A JSON metadata object, as an association list with lookup semantics. -/
abbrev Meta := List (String × MVal)

/-- Key lookup in a metadata object. -/
def Meta.get (m : Meta) (k : String) : Option MVal :=
  (m.find? (fun p => p.1 == k)).map (fun p => p.2)

/-- Overwrite/insert one key, as the JS object spread does. -/
def Meta.set (m : Meta) (k : String) (v : MVal) : Meta :=
  (k, v) :: m.filter (fun p => p.1 != k)

/-- One row of the `user_permissions` table. -/
structure PermissionRecord where
  profile_id : String
  permission_id : String
  active : Bool
  expires_at : Option Int
  product_id : Option String
  platform : Option String
  revenuecat_user_id : String
  metadata : Meta
deriving DecidableEq, Repr

/-- The `user_permissions` table: at most one record per key is maintained by
upserts; lookup returns the first record for a key. -/
abbrev Store := List PermissionRecord

/-- `select ... eq profile_id ... eq permission_id ... maybeSingle()`. -/
def Store.lookup (s : Store) (uid eid : String) : Option PermissionRecord :=
  s.find? (fun r => r.profile_id == uid && r.permission_id == eid)

/-- `upsert` keyed on (profile_id, permission_id): overwrite, never duplicate. -/
def Store.upsert (s : Store) (r : PermissionRecord) : Store :=
  r :: s.filter (fun q => !(q.profile_id == r.profile_id && q.permission_id == r.permission_id))

/-- A store access performed by a handler, for frame-effect claims. -/
inductive StoreOp where
  | read (uid eid : String) (result : Option PermissionRecord)
  | write (r : PermissionRecord)
deriving DecidableEq, Repr

/-- Whether a store operation mutates the store. -/
def StoreOp.isWrite : StoreOp → Bool
  | .write _ => true
  | .read _ _ _ => false

/-- Result of one permission-store handler. -/
structure HandlerResult where
  store : Store
  ops : List StoreOp
  triggerFired : Bool
deriving DecidableEq, Repr

/-- `handleSubscriptionActivation` (index.ts lines 231-298): read the existing
record to classify the activation as new (`!existingPermission ||
!existingPermission.active`), upsert a fresh record with `active = true` and a
wholly new metadata object, and mark the insights trigger as fired when the
entitlement is `product_a` and the activation is new. -/
def handleSubscriptionActivation (store : Store) (userId entitlementId productId platform : String)
    (expiresAt : Option Int) (transactionId environment now : String) : HandlerResult :=
  let existingPermission := Store.lookup store userId entitlementId
  let isNewSubscription : Bool :=
    match existingPermission with
    | none => true
    | some p => !p.active
  let record : PermissionRecord :=
    { profile_id := userId
      permission_id := entitlementId
      active := true
      expires_at := expiresAt
      product_id := some productId
      platform := some platform
      revenuecat_user_id := userId
      metadata :=
        [("transaction_id", .str transactionId),
         ("environment", .str environment),
         ("updated_at", .str now),
         ("status", .str "active"),
         ("source", .str "revenuecat_webhook"),
         ("event_processed_at", .str now)] }
  { store := Store.upsert store record
    ops := [.read userId entitlementId existingPermission, .write record]
    triggerFired := entitlementId == "product_a" && isNewSubscription }

/-- `handleSubscriptionCancellation` (index.ts lines 311-368): fetch the
existing record, shallow-merge `status: cancelled`, `cancelled_at`, `source`
into its metadata, and upsert with `active = true` and the EVENT expiration. -/
def handleSubscriptionCancellation (store : Store) (userId entitlementId : String)
    (expiresAt : Option Int) (now : String) : HandlerResult :=
  let existingPermission := Store.lookup store userId entitlementId
  let existingMetadata : Meta :=
    match existingPermission with
    | none => []
    | some p => p.metadata
  let updatedMetadata :=
    ((existingMetadata.set "status" (.str "cancelled")).set "cancelled_at" (.str now)).set
      "source" (.str "revenuecat_webhook")
  let record : PermissionRecord :=
    { profile_id := userId
      permission_id := entitlementId
      active := true
      expires_at := expiresAt
      product_id := existingPermission.bind (fun p => p.product_id)
      platform := existingPermission.bind (fun p => p.platform)
      revenuecat_user_id := userId
      metadata := updatedMetadata }
  { store := Store.upsert store record
    ops := [.read userId entitlementId existingPermission, .write record]
    triggerFired := false }

/-- `handleSubscriptionExpiration` (index.ts lines 379-434): fetch the existing
record, shallow-merge `status: expired`, `expired_at`, `source` into its
metadata, and upsert with `active = false` and the PRIOR expiration, product
and platform. -/
def handleSubscriptionExpiration (store : Store) (userId entitlementId : String)
    (now : String) : HandlerResult :=
  let existingPermission := Store.lookup store userId entitlementId
  let existingMetadata : Meta :=
    match existingPermission with
    | none => []
    | some p => p.metadata
  let updatedMetadata :=
    ((existingMetadata.set "status" (.str "expired")).set "expired_at" (.str now)).set
      "source" (.str "revenuecat_webhook")
  let record : PermissionRecord :=
    { profile_id := userId
      permission_id := entitlementId
      active := false
      expires_at := existingPermission.bind (fun p => p.expires_at)
      product_id := existingPermission.bind (fun p => p.product_id)
      platform := existingPermission.bind (fun p => p.platform)
      revenuecat_user_id := userId
      metadata := updatedMetadata }
  { store := Store.upsert store record
    ops := [.read userId entitlementId existingPermission, .write record]
    triggerFired := false }

/-- `handleBillingIssue` (index.ts lines 446-506): fetch the existing record;
if none, return without writing; otherwise shallow-merge the billing-issue
flag and timestamp into its metadata and upsert with `active = true` and the
prior expiration, product and platform. -/
def handleBillingIssue (store : Store) (userId entitlementId : String)
    (now : String) : HandlerResult :=
  match Store.lookup store userId entitlementId with
  | none =>
    { store := store
      ops := [.read userId entitlementId none]
      triggerFired := false }
  | some existingPermission =>
    let updatedMetadata :=
      ((existingPermission.metadata.set "billing_issue" (.bool true)).set
        "billing_issue_detected_at" (.str now)).set "source" (.str "revenuecat_webhook")
    let record : PermissionRecord :=
      { profile_id := userId
        permission_id := entitlementId
        active := true
        expires_at := existingPermission.expires_at
        product_id := existingPermission.product_id
        platform := existingPermission.platform
        revenuecat_user_id := userId
        metadata := updatedMetadata }
    { store := Store.upsert store record
      ops := [.read userId entitlementId (some existingPermission), .write record]
      triggerFired := false }

/-- Outcome of the outbound `fetch` to `analyze-golf-performance`: success
with an insights id, a non-ok HTTP status with an error text, or a thrown
exception (network failure, timeout). -/
inductive InsightsOutcome where
  | ok (insightsId : String)
  | httpError (errorText : String)
  | thrown
deriving DecidableEq, Repr

/-- `triggerPremiumInsightsGeneration` (index.ts lines 517-557): all failures
(missing `SUPABASE_URL`, non-ok response, thrown exception) are caught inside
the function and swallowed; it only reports whether insights were generated.
`Deno.env.get("SUPABASE_URL") || ""` followed by `if (!SUPABASE_URL) throw`
means an unset or empty URL is a (swallowed) failure. -/
def triggerPremiumInsightsGeneration (supabaseUrl : Option String)
    (outcome : InsightsOutcome) : Bool :=
  match supabaseUrl with
  | none => false
  | some url =>
    if url = "" then false
    else
      match outcome with
      | .ok _ => true
      | .httpError _ => false
      | .thrown => false

/-- The incoming event object (fields of `RequestPayload.event` the handler
consumes). `store` is `Option String` because the runtime JSON may omit it,
and `eventData.store.toLowerCase()` then throws (the other field reads never
throw: they are plain property reads or optional-chained). -/
structure WebhookEvent where
  type : String
  id : String
  app_user_id : String
  original_app_user_id : String
  product_id : String
  entitlement_ids : List String
  environment : String
  expiration_at_ms : Option Int
  transaction_id : String
  store : Option String
deriving DecidableEq, Repr

/-- `eventData.entitlement_ids?.[0] || "product_a"`: first entitlement id, or
the fallback `product_a` when the list is absent/empty or its head is the
falsy empty string. -/
def resolveEntitlement (ids : List String) : String :=
  match ids with
  | [] => "product_a"
  | e :: _ => if e = "" then "product_a" else e

/-- `expirationMs ? new Date(expirationMs) : null`: `null`, `undefined` and
the falsy `0` all become `null`. -/
def expirationToDate (ms : Option Int) : Option Int :=
  match ms with
  | none => none
  | some m => if m = 0 then none else some m

/-- The `switch (eventType)` dispatch (index.ts lines 128-190), applied after
field extraction. `storeLower` is `eventData.store.toLowerCase()`. Unknown
event types fall through to the default case, which touches nothing. -/
def dispatchEvent (store : Store) (event : WebhookEvent) (storeLower : String)
    (now : String) : HandlerResult :=
  let userId := event.original_app_user_id
  let entitlementId := resolveEntitlement event.entitlement_ids
  let expiresAt := expirationToDate event.expiration_at_ms
  if event.type = "INITIAL_PURCHASE" ∨ event.type = "RENEWAL" ∨
      event.type = "NON_RENEWING_PURCHASE" then
    handleSubscriptionActivation store userId entitlementId event.product_id storeLower
      expiresAt event.transaction_id event.environment now
  else if event.type = "CANCELLATION" then
    handleSubscriptionCancellation store userId entitlementId expiresAt now
  else if event.type = "EXPIRATION" then
    handleSubscriptionExpiration store userId entitlementId now
  else if event.type = "PRODUCT_CHANGE" then
    handleSubscriptionActivation store userId entitlementId event.product_id storeLower
      expiresAt event.transaction_id event.environment now
  else if event.type = "BILLING_ISSUE" then
    handleBillingIssue store userId entitlementId now
  else
    { store := store, ops := [], triggerFired := false }

/-- Environment configuration read by the handler. -/
structure Config where
  revenuecatAuthHeader : Option String
  supabaseUrl : Option String
deriving DecidableEq, Repr

/-- Body of an HTTP response emitted by the handler. -/
inductive ResponseBody where
  | empty
  | errorMsg (msg : String)
  | processed (event_type environment user_id : String)
  | serverError
deriving DecidableEq, Repr

/-- An HTTP response: status code and JSON body. -/
structure Response where
  status : Nat
  body : ResponseBody
deriving DecidableEq, Repr

/-- An inbound HTTP request. `authHeader = none` models a missing header;
`body = none` models a body on which `req.json()` (or reading `.event`)
throws. -/
structure Request where
  method : String
  authHeader : Option String
  body : Option WebhookEvent
deriving DecidableEq, Repr

/-- Result of one `serve` invocation: the HTTP response, the final store, the
trace of store operations, whether the insights trigger was invoked, and the
(logged-only) outcome of the insights call. -/
structure ServeResult where
  response : Response
  store : Store
  ops : List StoreOp
  triggerFired : Bool
  insightsOk : Bool
deriving DecidableEq, Repr

/-- The `serve` handler (index.ts lines 50-214): CORS preflight, method
check, auth-header validation (fail closed: 500 when `REVENUECAT_AUTH_HEADER`
is unset or the falsy empty string, 401 when the caller's header is absent or
differs), body parse, unconditional `eventData.store.toLowerCase()` before
the event-type switch, dispatch, then the 200 success payload; any exception
on the way is caught and mapped to the generic 500 error body. -/
def serveWebhook (cfg : Config) (req : Request) (store : Store) (now : String)
    (outcome : InsightsOutcome) : ServeResult :=
  if req.method = "OPTIONS" then
    { response := { status := 204, body := .empty }
      store := store, ops := [], triggerFired := false, insightsOk := false }
  else if req.method ≠ "POST" then
    { response := { status := 405, body := .errorMsg "Method not allowed" }
      store := store, ops := [], triggerFired := false, insightsOk := false }
  else
    match cfg.revenuecatAuthHeader with
    | none =>
      { response := { status := 500, body := .errorMsg "Server configuration error" }
        store := store, ops := [], triggerFired := false, insightsOk := false }
    | some expected =>
      if expected = "" then
        { response := { status := 500, body := .errorMsg "Server configuration error" }
          store := store, ops := [], triggerFired := false, insightsOk := false }
      else if req.authHeader ≠ some expected then
        { response := { status := 401, body := .errorMsg "Unauthorized" }
          store := store, ops := [], triggerFired := false, insightsOk := false }
      else
        match req.body with
        | none =>
          { response := { status := 500, body := .serverError }
            store := store, ops := [], triggerFired := false, insightsOk := false }
        | some event =>
          match event.store with
          | none =>
            { response := { status := 500, body := .serverError }
              store := store, ops := [], triggerFired := false, insightsOk := false }
          | some st =>
            let result := dispatchEvent store event st.toLower now
            let insightsOk :=
              if result.triggerFired then
                triggerPremiumInsightsGeneration cfg.supabaseUrl outcome
              else false
            { response :=
                { status := 200
                  body := .processed event.type event.environment event.original_app_user_id }
              store := result.store
              ops := result.ops
              triggerFired := result.triggerFired
              insightsOk := insightsOk }

/-! ### Helper lemmas -/

theorem Meta.get_set_same (m : Meta) (k : String) (v : MVal) :
    Meta.get (Meta.set m k v) k = some v := by
  simp [Meta.get, Meta.set]

theorem Meta.get_set_ne (m : Meta) (k k' : String) (v : MVal) (h : k' ≠ k) :
    Meta.get (Meta.set m k v) k' = Meta.get m k' := by
  have hpred : (fun p : String × MVal => decide ((p.1 != k) = true ∧ (p.1 == k') = true)) =
      (fun p : String × MVal => p.1 == k') := by
    funext p
    by_cases hp : p.1 = k'
    · simp [hp, bne_iff_ne, h]
    · simp [hp]
  unfold Meta.get Meta.set
  have step1 : List.find? (fun p : String × MVal => p.1 == k')
      ((k, v) :: List.filter (fun p => p.1 != k) m) =
      List.find? (fun p : String × MVal => p.1 == k')
        (List.filter (fun p => p.1 != k) m) := by
    apply List.find?_cons_of_neg
    simp only [beq_iff_eq]
    exact fun e => h e.symm
  rw [step1, List.find?_filter, hpred]

theorem Store.lookup_upsert_self (s : Store) (r : PermissionRecord) :
    Store.lookup (Store.upsert s r) r.profile_id r.permission_id = some r := by
  simp [Store.lookup, Store.upsert]

theorem Store.upsert_upsert (s : Store) (r : PermissionRecord) :
    Store.upsert (Store.upsert s r) r = Store.upsert s r := by
  simp [Store.upsert, List.filter_filter]

/-- When the request is an authenticated POST whose body parses and carries a
`store` field, `serve` runs the event dispatch and returns the 200 success
payload. -/
theorem serveWebhook_processing (cfg : Config) (req : Request) (store : Store) (now : String)
    (outcome : InsightsOutcome) (s : String) (ev : WebhookEvent) (st : String)
    (hm : req.method = "POST") (hc : cfg.revenuecatAuthHeader = some s) (hs : s ≠ "")
    (ha : req.authHeader = some s) (hb : req.body = some ev) (hst : ev.store = some st) :
    serveWebhook cfg req store now outcome =
      { response :=
          { status := 200
            body := .processed ev.type ev.environment ev.original_app_user_id }
        store := (dispatchEvent store ev st.toLower now).store
        ops := (dispatchEvent store ev st.toLower now).ops
        triggerFired := (dispatchEvent store ev st.toLower now).triggerFired
        insightsOk :=
          if (dispatchEvent store ev st.toLower now).triggerFired then
            triggerPremiumInsightsGeneration cfg.supabaseUrl outcome
          else false } := by
  unfold serveWebhook
  rw [hm, hc, hb]
  simp [hs, ha, hst]

/-- The activation handler marks the insights trigger as fired exactly when the
entitlement is `product_a` and the pre-write record was absent or inactive. -/
theorem activation_trigger_iff (store : Store) (u e p pl : String) (ex : Option Int)
    (t en n : String) :
    (handleSubscriptionActivation store u e p pl ex t en n).triggerFired = true ↔
      (e = "product_a" ∧
        (Store.lookup store u e = none ∨
          ∃ r, Store.lookup store u e = some r ∧ r.active = false)) := by
  unfold handleSubscriptionActivation
  cases hl : Store.lookup store u e with
  | none => simp [hl]
  | some r => simp [hl]

/-- The dispatch marks the insights trigger as fired exactly when the event is
one of the four Activation kinds, the resolved entitlement is `product_a`, and
the pre-write record for the key was absent or inactive. -/
theorem dispatch_trigger_iff (store : Store) (ev : WebhookEvent) (stl now : String) :
    (dispatchEvent store ev stl now).triggerFired = true ↔
      ((ev.type = "INITIAL_PURCHASE" ∨ ev.type = "RENEWAL" ∨
          ev.type = "NON_RENEWING_PURCHASE" ∨ ev.type = "PRODUCT_CHANGE") ∧
        resolveEntitlement ev.entitlement_ids = "product_a" ∧
        (Store.lookup store ev.original_app_user_id (resolveEntitlement ev.entitlement_ids)
            = none ∨
          ∃ r, Store.lookup store ev.original_app_user_id (resolveEntitlement ev.entitlement_ids)
              = some r ∧ r.active = false)) := by
  unfold dispatchEvent
  by_cases h1 : ev.type = "INITIAL_PURCHASE" ∨ ev.type = "RENEWAL" ∨
      ev.type = "NON_RENEWING_PURCHASE"
  · rw [if_pos h1, activation_trigger_iff]
    tauto
  · push_neg at h1
    obtain ⟨hA, hB, hC⟩ := h1
    rw [if_neg (by tauto)]
    by_cases h2 : ev.type = "CANCELLATION"
    · rw [if_pos h2]
      simp [handleSubscriptionCancellation, h2]
    · rw [if_neg h2]
      by_cases h3 : ev.type = "EXPIRATION"
      · rw [if_pos h3]
        simp [handleSubscriptionExpiration, h3]
      · rw [if_neg h3]
        by_cases h4 : ev.type = "PRODUCT_CHANGE"
        · rw [if_pos h4, activation_trigger_iff]
          tauto
        · rw [if_neg h4]
          by_cases h5 : ev.type = "BILLING_ISSUE"
          · rw [if_pos h5]
            unfold handleBillingIssue
            cases hl : Store.lookup store ev.original_app_user_id
                (resolveEntitlement ev.entitlement_ids) with
            | none => simp [hA, hB, hC, h4, h5]
            | some r => simp [hA, hB, hC, h4, h5]
          · rw [if_neg h5]
            simp [hA, hB, hC, h4]

/-! ### Claims -/

/-- C1: For every processed event, the insights side-effect trigger fires if
and only if the event is an Activation type (INITIAL_PURCHASE, RENEWAL,
NON_RENEWING_PURCHASE, PRODUCT_CHANGE), the resolved entitlement identifier
is the premium one (`product_a`), and before the activation write there was
either no permission record for the (user, entitlement) key or the existing
record had `active = false`. -/
theorem c1_trigger_fires_iff (cfg : Config) (req : Request) (store : Store) (now : String)
    (outcome : InsightsOutcome) (s : String) (ev : WebhookEvent) (st : String)
    (hm : req.method = "POST") (hc : cfg.revenuecatAuthHeader = some s) (hs : s ≠ "")
    (ha : req.authHeader = some s) (hb : req.body = some ev) (hst : ev.store = some st) :
    (serveWebhook cfg req store now outcome).triggerFired = true ↔
      ((ev.type = "INITIAL_PURCHASE" ∨ ev.type = "RENEWAL" ∨
          ev.type = "NON_RENEWING_PURCHASE" ∨ ev.type = "PRODUCT_CHANGE") ∧
        resolveEntitlement ev.entitlement_ids = "product_a" ∧
        (Store.lookup store ev.original_app_user_id (resolveEntitlement ev.entitlement_ids)
            = none ∨
          ∃ r, Store.lookup store ev.original_app_user_id (resolveEntitlement ev.entitlement_ids)
              = some r ∧ r.active = false)) := by
  rw [serveWebhook_processing cfg req store now outcome s ev st hm hc hs ha hb hst]
  exact dispatch_trigger_iff store ev st.toLower now

/-- C1 witness: an authenticated INITIAL_PURCHASE for `product_a` on an empty
store fires the trigger. -/
theorem c1_trigger_fires_iff_witness :
    (serveWebhook { revenuecatAuthHeader := some "sec", supabaseUrl := some "http://x" }
        { method := "POST", authHeader := some "sec",
          body := some
            { type := "INITIAL_PURCHASE", id := "e1", app_user_id := "u1",
              original_app_user_id := "u1", product_id := "p1",
              entitlement_ids := ["product_a"], environment := "PRODUCTION",
              expiration_at_ms := some 1893456000000, transaction_id := "t1",
              store := some "APP_STORE" } }
        [] "2026-01-01T00:00:00.000Z" (.ok "i1")).triggerFired = true :=
  (c1_trigger_fires_iff _ _ _ _ _ "sec" _ "APP_STORE" rfl rfl (by decide) rfl rfl
      rfl).mpr ⟨Or.inl rfl, by decide, Or.inl rfl⟩

/-- C2: For every valid activation event, applying the same event twice
(`handleSubscriptionActivation` run twice with identical inputs on the same
store state) yields a final store, and in particular a final permission record
for the key, identical to the state after the first application. -/
theorem c2_activation_idempotent (store : Store)
    (userId entitlementId productId platform : String) (expiresAt : Option Int)
    (transactionId environment now : String) :
    (handleSubscriptionActivation
        (handleSubscriptionActivation store userId entitlementId productId platform
          expiresAt transactionId environment now).store
        userId entitlementId productId platform expiresAt transactionId environment
        now).store =
      (handleSubscriptionActivation store userId entitlementId productId platform
        expiresAt transactionId environment now).store ∧
    Store.lookup
        (handleSubscriptionActivation
          (handleSubscriptionActivation store userId entitlementId productId platform
            expiresAt transactionId environment now).store
          userId entitlementId productId platform expiresAt transactionId environment
          now).store userId entitlementId =
      Store.lookup
        (handleSubscriptionActivation store userId entitlementId productId platform
          expiresAt transactionId environment now).store userId entitlementId := by
  have hst : (handleSubscriptionActivation
      (handleSubscriptionActivation store userId entitlementId productId platform
        expiresAt transactionId environment now).store
      userId entitlementId productId platform expiresAt transactionId environment
      now).store =
      (handleSubscriptionActivation store userId entitlementId productId platform
        expiresAt transactionId environment now).store := by
    unfold handleSubscriptionActivation
    exact Store.upsert_upsert store _
  exact ⟨hst, by rw [hst]⟩

/-- C3 counterexample: a CANCELLATION whose event expiration (2000 ms) differs
from the stored one (1000 ms) rewrites `expires_at` to the event value, so the
stored value is not preserved. -/
theorem c3_counterexample :
    ((handleSubscriptionCancellation
        [{ profile_id := "u1", permission_id := "product_a", active := true,
           expires_at := some 1000, product_id := some "p1", platform := some "app_store",
           revenuecat_user_id := "u1", metadata := [] }]
        "u1" "product_a" (some 2000) "2026-01-01T00:00:00.000Z").store.lookup
        "u1" "product_a").map PermissionRecord.expires_at = some (some 2000) ∧
    ((handleSubscriptionCancellation
        [{ profile_id := "u1", permission_id := "product_a", active := true,
           expires_at := some 1000, product_id := some "p1", platform := some "app_store",
           revenuecat_user_id := "u1", metadata := [] }]
        "u1" "product_a" (some 2000) "2026-01-01T00:00:00.000Z").store.lookup
        "u1" "product_a").map PermissionRecord.expires_at ≠ some (some 1000) := by
  decide

/-- C3 (amended): For every CANCELLATION event applied to a key with an
existing permission record, the resulting record has `active = true`, its
`expires_at` set to the event's expiration value (which need not equal the
stored one), and metadata containing status `cancelled` and a cancellation
timestamp. -/
theorem c3_cancellation_event_expiration (store : Store) (uid eid : String)
    (expiresAt : Option Int) (now : String) (r : PermissionRecord)
    (h : Store.lookup store uid eid = some r) :
    ∃ rec, Store.lookup (handleSubscriptionCancellation store uid eid expiresAt now).store
        uid eid = some rec ∧
      rec.active = true ∧
      rec.expires_at = expiresAt ∧
      Meta.get rec.metadata "status" = some (.str "cancelled") ∧
      Meta.get rec.metadata "cancelled_at" = some (.str now) := by
  unfold handleSubscriptionCancellation
  refine ⟨_, Store.lookup_upsert_self store _, rfl, rfl, ?_, ?_⟩
  · rw [Meta.get_set_ne _ _ _ _ (by decide), Meta.get_set_ne _ _ _ _ (by decide),
      Meta.get_set_same]
  · rw [Meta.get_set_ne _ _ _ _ (by decide), Meta.get_set_same]

/-- C3 witness: concrete cancellation on an existing record. -/
theorem c3_cancellation_event_expiration_witness :
    ∃ rec, Store.lookup (handleSubscriptionCancellation
        [{ profile_id := "u1", permission_id := "product_a", active := true,
           expires_at := some 1000, product_id := some "p1", platform := some "app_store",
           revenuecat_user_id := "u1", metadata := [] }]
        "u1" "product_a" (some 2000) "T").store "u1" "product_a" = some rec ∧
      rec.active = true ∧
      rec.expires_at = some 2000 ∧
      Meta.get rec.metadata "status" = some (.str "cancelled") ∧
      Meta.get rec.metadata "cancelled_at" = some (.str "T") :=
  c3_cancellation_event_expiration _ "u1" "product_a" (some 2000) "T"
    { profile_id := "u1", permission_id := "product_a", active := true,
      expires_at := some 1000, product_id := some "p1", platform := some "app_store",
      revenuecat_user_id := "u1", metadata := [] } (by decide)

/-- C4: For every EXPIRATION event applied to a key with an existing
permission record, the resulting record has `active = false` and preserves the
prior record's `product_id`, `platform`, and `expires_at` values, with
metadata status `expired`; EXPIRATION is the only handler that sets `active`
to `false` (all writes performed by the activation, cancellation and
billing-issue handlers have `active = true`). -/
theorem c4_expiration_deactivates (store : Store) (uid eid now : String)
    (r : PermissionRecord) (h : Store.lookup store uid eid = some r) :
    (∃ rec, Store.lookup (handleSubscriptionExpiration store uid eid now).store uid eid
        = some rec ∧
      rec.active = false ∧
      rec.product_id = r.product_id ∧
      rec.platform = r.platform ∧
      rec.expires_at = r.expires_at ∧
      Meta.get rec.metadata "status" = some (.str "expired")) ∧
    (∀ (store' : Store) (u e p pl : String) (ex : Option Int) (t en n : String)
        (rec : PermissionRecord),
      StoreOp.write rec ∈ (handleSubscriptionActivation store' u e p pl ex t en n).ops →
        rec.active = true) ∧
    (∀ (store' : Store) (u e : String) (ex : Option Int) (n : String)
        (rec : PermissionRecord),
      StoreOp.write rec ∈ (handleSubscriptionCancellation store' u e ex n).ops →
        rec.active = true) ∧
    (∀ (store' : Store) (u e n : String) (rec : PermissionRecord),
      StoreOp.write rec ∈ (handleBillingIssue store' u e n).ops → rec.active = true) := by
  refine ⟨?_, ?_, ?_, ?_⟩
  · unfold handleSubscriptionExpiration
    rw [h]
    refine ⟨_, Store.lookup_upsert_self store _, rfl, rfl, rfl, rfl, ?_⟩
    rw [Meta.get_set_ne _ _ _ _ (by decide), Meta.get_set_ne _ _ _ _ (by decide),
      Meta.get_set_same]
  · intro store' u e p pl ex t en n rec hmem
    simp [handleSubscriptionActivation] at hmem
    rw [hmem]
  · intro store' u e ex n rec hmem
    simp [handleSubscriptionCancellation] at hmem
    rw [hmem]
  · intro store' u e n rec hmem
    unfold handleBillingIssue at hmem
    cases hl : Store.lookup store' u e with
    | none => rw [hl] at hmem; simp at hmem
    | some q => rw [hl] at hmem; simp at hmem; rw [hmem]

/-- C4 witness: concrete expiration of an existing active record. -/
theorem c4_expiration_deactivates_witness :
    ∃ rec, Store.lookup (handleSubscriptionExpiration
        [{ profile_id := "u1", permission_id := "product_a", active := true,
           expires_at := some 1000, product_id := some "p1", platform := some "app_store",
           revenuecat_user_id := "u1", metadata := [] }]
        "u1" "product_a" "T").store "u1" "product_a" = some rec ∧
      rec.active = false ∧
      rec.product_id = some "p1" ∧
      rec.platform = some "app_store" ∧
      rec.expires_at = some 1000 ∧
      Meta.get rec.metadata "status" = some (.str "expired") :=
  (c4_expiration_deactivates _ "u1" "product_a" "T"
    { profile_id := "u1", permission_id := "product_a", active := true,
      expires_at := some 1000, product_id := some "p1", platform := some "app_store",
      revenuecat_user_id := "u1", metadata := [] } (by decide)).1

/-- C5: For every POST request whose Authorization header is missing or not
exactly equal to the configured (non-empty) secret, the handler returns status
401 and no permission record is read or mutated; if the expected secret is not
configured at all, the handler returns 500 without processing the event — for
every event type, since the request body is arbitrary. -/
theorem c5_auth_failures (cfg : Config) (req : Request) (store : Store) (now : String)
    (outcome : InsightsOutcome) (hm : req.method = "POST") :
    (∀ s : String, cfg.revenuecatAuthHeader = some s → s ≠ "" → req.authHeader ≠ some s →
      (serveWebhook cfg req store now outcome).response =
          { status := 401, body := .errorMsg "Unauthorized" } ∧
      (serveWebhook cfg req store now outcome).ops = [] ∧
      (serveWebhook cfg req store now outcome).store = store) ∧
    (cfg.revenuecatAuthHeader = none →
      (serveWebhook cfg req store now outcome).response =
          { status := 500, body := .errorMsg "Server configuration error" } ∧
      (serveWebhook cfg req store now outcome).ops = [] ∧
      (serveWebhook cfg req store now outcome).store = store) := by
  constructor
  · intro s hc hs ha
    unfold serveWebhook
    rw [hm, hc]
    simp [hs, ha]
  · intro hc
    unfold serveWebhook
    rw [hm, hc]
    simp

/-- C5 witness: a wrong secret against a configured server yields 401 with no
store access. -/
theorem c5_auth_failures_witness :
    (serveWebhook { revenuecatAuthHeader := some "sec", supabaseUrl := none }
        { method := "POST", authHeader := some "wrong", body := none }
        [] "T" .thrown).response = { status := 401, body := .errorMsg "Unauthorized" } ∧
    (serveWebhook { revenuecatAuthHeader := some "sec", supabaseUrl := none }
        { method := "POST", authHeader := some "wrong", body := none }
        [] "T" .thrown).ops = [] ∧
    (serveWebhook { revenuecatAuthHeader := some "sec", supabaseUrl := none }
        { method := "POST", authHeader := some "wrong", body := none }
        [] "T" .thrown).store = [] :=
  (c5_auth_failures _ _ [] "T" .thrown rfl).1 "sec" rfl (by decide) (by decide)

/-- C6: For every authenticated POST carrying an event whose type is not one
of the seven known kinds, the handler returns the 200 success payload (echoing
event type, environment, user id) and performs no read or write of any
permission record. -/
theorem c6_unknown_event_type (cfg : Config) (req : Request) (store : Store) (now : String)
    (outcome : InsightsOutcome) (s : String) (ev : WebhookEvent) (st : String)
    (hm : req.method = "POST") (hc : cfg.revenuecatAuthHeader = some s) (hs : s ≠ "")
    (ha : req.authHeader = some s) (hb : req.body = some ev) (hst : ev.store = some st)
    (ht : ev.type ∉ (["INITIAL_PURCHASE", "RENEWAL", "NON_RENEWING_PURCHASE",
        "CANCELLATION", "EXPIRATION", "PRODUCT_CHANGE", "BILLING_ISSUE"] : List String)) :
    (serveWebhook cfg req store now outcome).response =
        { status := 200,
          body := .processed ev.type ev.environment ev.original_app_user_id } ∧
    (serveWebhook cfg req store now outcome).ops = [] ∧
    (serveWebhook cfg req store now outcome).store = store := by
  rw [serveWebhook_processing cfg req store now outcome s ev st hm hc hs ha hb hst]
  simp only [List.mem_cons, List.mem_singleton, not_or] at ht
  obtain ⟨h1, h2, h3, h4, h5, h6, h7⟩ := ht
  simp [dispatchEvent, h1, h2, h3, h4, h5, h6, h7]

/-- C6 witness: an authenticated TEST event leaves the store untouched and
returns the echoing success payload. -/
theorem c6_unknown_event_type_witness :
    (serveWebhook { revenuecatAuthHeader := some "sec", supabaseUrl := some "http://x" }
        { method := "POST", authHeader := some "sec",
          body := some
            { type := "TEST", id := "e1", app_user_id := "u1",
              original_app_user_id := "u1", product_id := "p1",
              entitlement_ids := ["product_a"], environment := "SANDBOX",
              expiration_at_ms := none, transaction_id := "t1",
              store := some "APP_STORE" } }
        [] "T" .thrown).response = { status := 200, body := .processed "TEST" "SANDBOX" "u1" } ∧
    (serveWebhook { revenuecatAuthHeader := some "sec", supabaseUrl := some "http://x" }
        { method := "POST", authHeader := some "sec",
          body := some
            { type := "TEST", id := "e1", app_user_id := "u1",
              original_app_user_id := "u1", product_id := "p1",
              entitlement_ids := ["product_a"], environment := "SANDBOX",
              expiration_at_ms := none, transaction_id := "t1",
              store := some "APP_STORE" } }
        [] "T" .thrown).ops = [] ∧
    (serveWebhook { revenuecatAuthHeader := some "sec", supabaseUrl := some "http://x" }
        { method := "POST", authHeader := some "sec",
          body := some
            { type := "TEST", id := "e1", app_user_id := "u1",
              original_app_user_id := "u1", product_id := "p1",
              entitlement_ids := ["product_a"], environment := "SANDBOX",
              expiration_at_ms := none, transaction_id := "t1",
              store := some "APP_STORE" } }
        [] "T" .thrown).store = [] :=
  c6_unknown_event_type _ _ [] "T" .thrown "sec"
    { type := "TEST", id := "e1", app_user_id := "u1",
      original_app_user_id := "u1", product_id := "p1",
      entitlement_ids := ["product_a"], environment := "SANDBOX",
      expiration_at_ms := none, transaction_id := "t1",
      store := some "APP_STORE" } "APP_STORE" rfl rfl (by decide) rfl rfl
    rfl (by decide)

/-- C7: For every qualifying new premium activation (the trigger actually
fires), any failure of the insights side-effect call — non-success HTTP status
or thrown exception, modelled by an arbitrary second outcome `o2` — leaves the
webhook's own HTTP response unchanged: the handler still returns the 200
success payload, and the stored permission record is unaffected by the
side-effect outcome. -/
theorem c7_insights_failure_isolated (cfg : Config) (req : Request) (store : Store)
    (now : String) (o1 o2 : InsightsOutcome) (s : String) (ev : WebhookEvent) (st : String)
    (hm : req.method = "POST") (hc : cfg.revenuecatAuthHeader = some s) (hs : s ≠ "")
    (ha : req.authHeader = some s) (hb : req.body = some ev) (hst : ev.store = some st)
    (htype : ev.type = "INITIAL_PURCHASE" ∨ ev.type = "RENEWAL" ∨
      ev.type = "NON_RENEWING_PURCHASE" ∨ ev.type = "PRODUCT_CHANGE")
    (hent : resolveEntitlement ev.entitlement_ids = "product_a")
    (hnew : Store.lookup store ev.original_app_user_id (resolveEntitlement ev.entitlement_ids)
        = none ∨
      ∃ r, Store.lookup store ev.original_app_user_id (resolveEntitlement ev.entitlement_ids)
          = some r ∧ r.active = false) :
    (serveWebhook cfg req store now o1).triggerFired = true ∧
    (serveWebhook cfg req store now o1).response =
        { status := 200,
          body := .processed ev.type ev.environment ev.original_app_user_id } ∧
    (serveWebhook cfg req store now o1).response = (serveWebhook cfg req store now o2).response ∧
    (serveWebhook cfg req store now o1).store = (serveWebhook cfg req store now o2).store := by
  rw [serveWebhook_processing cfg req store now o1 s ev st hm hc hs ha hb hst,
    serveWebhook_processing cfg req store now o2 s ev st hm hc hs ha hb hst]
  exact ⟨(dispatch_trigger_iff store ev st.toLower now).mpr ⟨htype, hent, hnew⟩, rfl, rfl, rfl⟩

/-- C7 witness: a new premium INITIAL_PURCHASE whose insights call throws
still yields the same 200 response and store as one whose call succeeds. -/
theorem c7_insights_failure_isolated_witness :
    (serveWebhook { revenuecatAuthHeader := some "sec", supabaseUrl := some "http://x" }
        { method := "POST", authHeader := some "sec",
          body := some
            { type := "INITIAL_PURCHASE", id := "e1", app_user_id := "u1",
              original_app_user_id := "u1", product_id := "p1",
              entitlement_ids := ["product_a"], environment := "PRODUCTION",
              expiration_at_ms := some 1893456000000, transaction_id := "t1",
              store := some "APP_STORE" } }
        [] "T" .thrown).triggerFired = true ∧
    (serveWebhook { revenuecatAuthHeader := some "sec", supabaseUrl := some "http://x" }
        { method := "POST", authHeader := some "sec",
          body := some
            { type := "INITIAL_PURCHASE", id := "e1", app_user_id := "u1",
              original_app_user_id := "u1", product_id := "p1",
              entitlement_ids := ["product_a"], environment := "PRODUCTION",
              expiration_at_ms := some 1893456000000, transaction_id := "t1",
              store := some "APP_STORE" } }
        [] "T" .thrown).response =
      { status := 200, body := .processed "INITIAL_PURCHASE" "PRODUCTION" "u1" } ∧
    (serveWebhook { revenuecatAuthHeader := some "sec", supabaseUrl := some "http://x" }
        { method := "POST", authHeader := some "sec",
          body := some
            { type := "INITIAL_PURCHASE", id := "e1", app_user_id := "u1",
              original_app_user_id := "u1", product_id := "p1",
              entitlement_ids := ["product_a"], environment := "PRODUCTION",
              expiration_at_ms := some 1893456000000, transaction_id := "t1",
              store := some "APP_STORE" } }
        [] "T" .thrown).response =
      (serveWebhook { revenuecatAuthHeader := some "sec", supabaseUrl := some "http://x" }
        { method := "POST", authHeader := some "sec",
          body := some
            { type := "INITIAL_PURCHASE", id := "e1", app_user_id := "u1",
              original_app_user_id := "u1", product_id := "p1",
              entitlement_ids := ["product_a"], environment := "PRODUCTION",
              expiration_at_ms := some 1893456000000, transaction_id := "t1",
              store := some "APP_STORE" } }
        [] "T" (.ok "i1")).response ∧
    (serveWebhook { revenuecatAuthHeader := some "sec", supabaseUrl := some "http://x" }
        { method := "POST", authHeader := some "sec",
          body := some
            { type := "INITIAL_PURCHASE", id := "e1", app_user_id := "u1",
              original_app_user_id := "u1", product_id := "p1",
              entitlement_ids := ["product_a"], environment := "PRODUCTION",
              expiration_at_ms := some 1893456000000, transaction_id := "t1",
              store := some "APP_STORE" } }
        [] "T" .thrown).store =
      (serveWebhook { revenuecatAuthHeader := some "sec", supabaseUrl := some "http://x" }
        { method := "POST", authHeader := some "sec",
          body := some
            { type := "INITIAL_PURCHASE", id := "e1", app_user_id := "u1",
              original_app_user_id := "u1", product_id := "p1",
              entitlement_ids := ["product_a"], environment := "PRODUCTION",
              expiration_at_ms := some 1893456000000, transaction_id := "t1",
              store := some "APP_STORE" } }
        [] "T" (.ok "i1")).store :=
  c7_insights_failure_isolated _ _ [] "T" .thrown (.ok "i1") "sec" _ "APP_STORE"
    rfl rfl (by decide) rfl rfl rfl (Or.inl rfl) (by decide) (Or.inl rfl)

/-- C8 counterexample: an INITIAL_PURCHASE applied to a key whose existing
record carries the metadata key `custom` (not among the new event's fields)
drops that key: the activation handler replaces the metadata object instead of
shallow-merging it. -/
theorem c8_counterexample :
    Meta.get (((handleSubscriptionActivation
        [{ profile_id := "u1", permission_id := "product_a", active := true,
           expires_at := some 1000, product_id := some "p1", platform := some "app_store",
           revenuecat_user_id := "u1", metadata := [("custom", .str "keep")] }]
        "u1" "product_a" "p1" "app_store" (some 2000) "t1" "PRODUCTION" "T").store.lookup
          "u1" "product_a").elim [] PermissionRecord.metadata) "custom" = none ∧
    Meta.get [("custom", MVal.str "keep")] "custom" = some (.str "keep") := by
  decide

/-- C8 (amended): For CANCELLATION, EXPIRATION and BILLING_ISSUE events
applied to a key with an existing permission record, the metadata object
written by the handler is a shallow merge that preserves the prior record's
metadata fields not overwritten by the new event's fields; Activation events,
by contrast, replace the metadata object wholesale with a fixed fresh one, so
prior metadata keys do not survive an Activation. -/
theorem c8_metadata_merge (store : Store) (uid eid : String) (expiresAt : Option Int)
    (pid pl tid env now : String) (r : PermissionRecord) (k : String)
    (h : Store.lookup store uid eid = some r) :
    (k ≠ "status" → k ≠ "cancelled_at" → k ≠ "source" →
      (Store.lookup (handleSubscriptionCancellation store uid eid expiresAt now).store
          uid eid).elim none (fun q => Meta.get q.metadata k) = Meta.get r.metadata k) ∧
    (k ≠ "status" → k ≠ "expired_at" → k ≠ "source" →
      (Store.lookup (handleSubscriptionExpiration store uid eid now).store
          uid eid).elim none (fun q => Meta.get q.metadata k) = Meta.get r.metadata k) ∧
    (k ≠ "billing_issue" → k ≠ "billing_issue_detected_at" → k ≠ "source" →
      (Store.lookup (handleBillingIssue store uid eid now).store
          uid eid).elim none (fun q => Meta.get q.metadata k) = Meta.get r.metadata k) ∧
    (∃ rec, Store.lookup
        (handleSubscriptionActivation store uid eid pid pl expiresAt tid env now).store
        uid eid = some rec ∧
      rec.metadata =
        [("transaction_id", .str tid), ("environment", .str env),
         ("updated_at", .str now), ("status", .str "active"),
         ("source", .str "revenuecat_webhook"), ("event_processed_at", .str now)]) := by
  refine ⟨?_, ?_, ?_, ?_⟩
  · intro k1 k2 k3
    unfold handleSubscriptionCancellation
    rw [h]
    rw [Store.lookup_upsert_self store _]
    simp only [Option.elim]
    rw [Meta.get_set_ne _ _ _ _ k3, Meta.get_set_ne _ _ _ _ k2, Meta.get_set_ne _ _ _ _ k1]
  · intro k1 k2 k3
    unfold handleSubscriptionExpiration
    rw [h]
    rw [Store.lookup_upsert_self store _]
    simp only [Option.elim]
    rw [Meta.get_set_ne _ _ _ _ k3, Meta.get_set_ne _ _ _ _ k2, Meta.get_set_ne _ _ _ _ k1]
  · intro k1 k2 k3
    unfold handleBillingIssue
    rw [h]
    rw [Store.lookup_upsert_self store _]
    simp only [Option.elim]
    rw [Meta.get_set_ne _ _ _ _ k3, Meta.get_set_ne _ _ _ _ k2, Meta.get_set_ne _ _ _ _ k1]
  · unfold handleSubscriptionActivation
    exact ⟨_, Store.lookup_upsert_self store _, rfl⟩

/-- C8 witness: a prior metadata key `custom` survives a concrete cancellation,
expiration and billing issue, and a concrete activation replaces metadata with
the fixed fresh object. -/
theorem c8_metadata_merge_witness :
    ((Store.lookup (handleSubscriptionCancellation
        [{ profile_id := "u1", permission_id := "product_a", active := true,
           expires_at := some 1000, product_id := some "p1", platform := some "app_store",
           revenuecat_user_id := "u1", metadata := [("custom", .str "keep")] }]
        "u1" "product_a" (some 2000) "T").store "u1" "product_a").elim none
        (fun q => Meta.get q.metadata "custom") =
      Meta.get [("custom", MVal.str "keep")] "custom") ∧
    (∃ rec, Store.lookup (handleSubscriptionActivation
        [{ profile_id := "u1", permission_id := "product_a", active := true,
           expires_at := some 1000, product_id := some "p1", platform := some "app_store",
           revenuecat_user_id := "u1", metadata := [("custom", .str "keep")] }]
        "u1" "product_a" "p1" "app_store" (some 2000) "t1" "PRODUCTION" "T").store
        "u1" "product_a" = some rec ∧
      rec.metadata =
        [("transaction_id", .str "t1"), ("environment", .str "PRODUCTION"),
         ("updated_at", .str "T"), ("status", .str "active"),
         ("source", .str "revenuecat_webhook"), ("event_processed_at", .str "T")]) :=
  ⟨(c8_metadata_merge _ "u1" "product_a" (some 2000) "p1" "app_store" "t1" "PRODUCTION" "T"
      { profile_id := "u1", permission_id := "product_a", active := true,
        expires_at := some 1000, product_id := some "p1", platform := some "app_store",
        revenuecat_user_id := "u1", metadata := [("custom", .str "keep")] } "custom"
      (by decide)).1 (by decide) (by decide) (by decide),
   (c8_metadata_merge _ "u1" "product_a" (some 2000) "p1" "app_store" "t1" "PRODUCTION" "T"
      { profile_id := "u1", permission_id := "product_a", active := true,
        expires_at := some 1000, product_id := some "p1", platform := some "app_store",
        revenuecat_user_id := "u1", metadata := [("custom", .str "keep")] } "custom"
      (by decide)).2.2.2⟩

/-- C9: For every BILLING_ISSUE event: if no permission record exists for the
(user, entitlement) key, the handler performs no write and the webhook still
returns the 200 success payload; if a record exists, the resulting record
keeps `active = true` and its prior `expires_at`, `product_id`, and
`platform`, with metadata gaining a billing-issue flag and a detection
timestamp. -/
theorem c9_billing_issue (cfg : Config) (req : Request) (store : Store) (now : String)
    (outcome : InsightsOutcome) (s : String) (ev : WebhookEvent) (st : String)
    (hm : req.method = "POST") (hc : cfg.revenuecatAuthHeader = some s) (hs : s ≠ "")
    (ha : req.authHeader = some s) (hb : req.body = some ev) (hst : ev.store = some st)
    (htype : ev.type = "BILLING_ISSUE") :
    (Store.lookup store ev.original_app_user_id (resolveEntitlement ev.entitlement_ids)
        = none →
      (serveWebhook cfg req store now outcome).store = store ∧
      ((serveWebhook cfg req store now outcome).ops.filter StoreOp.isWrite) = [] ∧
      (serveWebhook cfg req store now outcome).response =
        { status := 200,
          body := .processed ev.type ev.environment ev.original_app_user_id }) ∧
    (∀ r, Store.lookup store ev.original_app_user_id (resolveEntitlement ev.entitlement_ids)
        = some r →
      ∃ rec, Store.lookup (serveWebhook cfg req store now outcome).store
          ev.original_app_user_id (resolveEntitlement ev.entitlement_ids) = some rec ∧
        rec.active = true ∧
        rec.expires_at = r.expires_at ∧
        rec.product_id = r.product_id ∧
        rec.platform = r.platform ∧
        Meta.get rec.metadata "billing_issue" = some (.bool true) ∧
        Meta.get rec.metadata "billing_issue_detected_at" = some (.str now)) := by
  rw [serveWebhook_processing cfg req store now outcome s ev st hm hc hs ha hb hst]
  constructor
  · intro hl
    simp [dispatchEvent, htype, handleBillingIssue, hl, StoreOp.isWrite]
  · intro r hl
    have hd : dispatchEvent store ev st.toLower now =
        handleBillingIssue store ev.original_app_user_id
          (resolveEntitlement ev.entitlement_ids) now := by
      simp [dispatchEvent, htype]
    simp only [hd]
    unfold handleBillingIssue
    rw [hl]
    refine ⟨_, Store.lookup_upsert_self store _, rfl, rfl, rfl, rfl, ?_, ?_⟩
    · rw [Meta.get_set_ne _ _ _ _ (by decide), Meta.get_set_ne _ _ _ _ (by decide),
        Meta.get_set_same]
    · rw [Meta.get_set_ne _ _ _ _ (by decide), Meta.get_set_same]

/-- C9 witness: a concrete BILLING_ISSUE on an existing record flags it while
keeping access and prior fields. -/
theorem c9_billing_issue_witness :
    ∃ rec, Store.lookup (serveWebhook
        { revenuecatAuthHeader := some "sec", supabaseUrl := some "http://x" }
        { method := "POST", authHeader := some "sec",
          body := some
            { type := "BILLING_ISSUE", id := "e1", app_user_id := "u1",
              original_app_user_id := "u1", product_id := "p1",
              entitlement_ids := ["product_a"], environment := "PRODUCTION",
              expiration_at_ms := some 2000, transaction_id := "t1",
              store := some "APP_STORE" } }
        [{ profile_id := "u1", permission_id := "product_a", active := true,
           expires_at := some 1000, product_id := some "p1", platform := some "app_store",
           revenuecat_user_id := "u1", metadata := [] }]
        "T" .thrown).store "u1" "product_a" = some rec ∧
      rec.active = true ∧
      rec.expires_at = some 1000 ∧
      rec.product_id = some "p1" ∧
      rec.platform = some "app_store" ∧
      Meta.get rec.metadata "billing_issue" = some (.bool true) ∧
      Meta.get rec.metadata "billing_issue_detected_at" = some (.str "T") :=
  (c9_billing_issue _ _ _ "T" .thrown "sec"
      { type := "BILLING_ISSUE", id := "e1", app_user_id := "u1",
        original_app_user_id := "u1", product_id := "p1",
        entitlement_ids := ["product_a"], environment := "PRODUCTION",
        expiration_at_ms := some 2000, transaction_id := "t1",
        store := some "APP_STORE" } "APP_STORE" rfl rfl (by decide) rfl rfl rfl rfl).2
    { profile_id := "u1", permission_id := "product_a", active := true,
      expires_at := some 1000, product_id := some "p1", platform := some "app_store",
      revenuecat_user_id := "u1", metadata := [] } (by decide)

/-- C10: For every authenticated POST whose parsed event lacks a string
`store` field, the handler throws on `eventData.store.toLowerCase()` before
dispatching on the event type and returns the generic 500 error response with
no permission record read or mutated — for every event type, including those
whose processing never uses the store value. -/
theorem c10_missing_store_field (cfg : Config) (req : Request) (store : Store) (now : String)
    (outcome : InsightsOutcome) (s : String) (ev : WebhookEvent)
    (hm : req.method = "POST") (hc : cfg.revenuecatAuthHeader = some s) (hs : s ≠ "")
    (ha : req.authHeader = some s) (hb : req.body = some ev) (hst : ev.store = none) :
    (serveWebhook cfg req store now outcome).response =
        { status := 500, body := .serverError } ∧
    (serveWebhook cfg req store now outcome).ops = [] ∧
    (serveWebhook cfg req store now outcome).store = store := by
  unfold serveWebhook
  rw [hm, hc, hb]
  simp [hs, ha, hst]

/-- C10 witness: an authenticated CANCELLATION without a `store` field yields
the generic 500 error and touches nothing, though cancellation processing
itself never uses the store value. -/
theorem c10_missing_store_field_witness :
    (serveWebhook { revenuecatAuthHeader := some "sec", supabaseUrl := some "http://x" }
        { method := "POST", authHeader := some "sec",
          body := some
            { type := "CANCELLATION", id := "e1", app_user_id := "u1",
              original_app_user_id := "u1", product_id := "p1",
              entitlement_ids := ["product_a"], environment := "PRODUCTION",
              expiration_at_ms := some 2000, transaction_id := "t1",
              store := none } }
        [] "T" .thrown).response = { status := 500, body := .serverError } ∧
    (serveWebhook { revenuecatAuthHeader := some "sec", supabaseUrl := some "http://x" }
        { method := "POST", authHeader := some "sec",
          body := some
            { type := "CANCELLATION", id := "e1", app_user_id := "u1",
              original_app_user_id := "u1", product_id := "p1",
              entitlement_ids := ["product_a"], environment := "PRODUCTION",
              expiration_at_ms := some 2000, transaction_id := "t1",
              store := none } }
        [] "T" .thrown).ops = [] ∧
    (serveWebhook { revenuecatAuthHeader := some "sec", supabaseUrl := some "http://x" }
        { method := "POST", authHeader := some "sec",
          body := some
            { type := "CANCELLATION", id := "e1", app_user_id := "u1",
              original_app_user_id := "u1", product_id := "p1",
              entitlement_ids := ["product_a"], environment := "PRODUCTION",
              expiration_at_ms := some 2000, transaction_id := "t1",
              store := none } }
        [] "T" .thrown).store = [] :=
  c10_missing_store_field _ _ [] "T" .thrown "sec"
    { type := "CANCELLATION", id := "e1", app_user_id := "u1",
      original_app_user_id := "u1", product_id := "p1",
      entitlement_ids := ["product_a"], environment := "PRODUCTION",
      expiration_at_ms := some 2000, transaction_id := "t1",
      store := none } rfl rfl (by decide) rfl rfl rfl

end RCWebhook
